import Mathlib

/-!
Shallow embedding of the secrets-mcp-server tool-call layer
(src/index.ts and src/http-server.ts).

The protocol layer is modelled as pure functions:
* JSON values as an inductive type;
* the zod object schemas (StoreSecretSchema, RetrieveSecretSchema,
  DeleteSecretSchema) as parsers returning `Except String`;
* the OS keyring (the `@napi-rs/keyring` Entry / findCredentials calls)
  as an abstract `SecretAdapter` whose operations may fail with a
  message (`Except String`), matching the try/catch structure of the
  handlers;
* the CallToolRequestSchema handler as a total function
  `handleCallTool` returning a `ToolResult` and the updated adapter
  state; the outer try/catch of the TS handler corresponds to the
  handling of the `.error` branch of the schema parsers.

An in-memory adapter `memAdapter` (an association list) instantiates
the abstract adapter on the fault-free path.
-/

namespace SecretsMcp

/-- A JSON value, as appearing in tool-call arguments and schemas. -/
inductive Json where
  | str : String → Json
  | num : Int → Json
  | jbool : Bool → Json
  | null : Json
  | arr : List Json → Json
  | obj : List (String × Json) → Json

/-- One content block of a Tool-Call Result ({type, text} in the TS code). -/
structure ContentBlock where
  type : String
  text : String
deriving Repr, DecidableEq

/-- A Tool-Call Result: content blocks plus the optional isError flag.
`none` models the absent field of the TS object literal. -/
structure ToolResult where
  content : List ContentBlock
  isError : Option Bool := none
deriving Repr, DecidableEq

/-- A credential as returned by findCredentials: account is the key
(the Entry was created as Entry(SERVICE_NAME, key)). -/
structure Credential where
  account : String
  password : String
deriving Repr, DecidableEq

/-- The keyring operations used by the handlers, over a state type σ.
Each call may throw, modelled by `Except String` carrying the
exception message. `setPassword` and `deletePassword` update the
state; `deletePassword` returns whether an entry existed. -/
structure SecretAdapter (σ : Type) where
  setPassword : σ → String → String → Except String σ
  getPassword : σ → String → Except String (Option String)
  deletePassword : σ → String → Except String (Bool × σ)
  findCredentials : σ → Except String (List Credential)

/-- Substring containment on lists of characters: some suffix of `l`
starts with `pat`. -/
def listContains (l pat : List Char) : Bool :=
  match l with
  | [] => pat.isEmpty
  | _ :: t => pat.isPrefixOf l || listContains t pat

/-- The TS String.prototype.includes test used by the list_secrets
catch branch: substring containment. -/
def strIncludes (s pat : String) : Bool :=
  listContains s.data pat.data

/-- Field lookup in a JSON object body. -/
def jsonLookup (fields : List (String × Json)) (k : String) : Option Json :=
  match fields with
  | [] => none
  | (k', v) :: rest => if k' = k then some v else jsonLookup rest k

/-- z.string() applied to one required field of a z.object: present and
a string succeeds (the empty string is a string); missing or of another
type throws with a message naming the field. -/
def parseStringField (args : Option Json) (field : String) : Except String String :=
  match args with
  | some (Json.obj fields) =>
    match jsonLookup fields field with
    | some (Json.str s) => Except.ok s
    | some _ => Except.error (field ++ ": Expected string")
    | none => Except.error (field ++ ": Required")
  | _ => Except.error "Expected object"

/-- StoreSecretSchema.parse: requires key and value, both strings. -/
def storeSecretParse (args : Option Json) : Except String (String × String) :=
  match parseStringField args "key" with
  | Except.error m => Except.error m
  | Except.ok key =>
    match parseStringField args "value" with
    | Except.error m => Except.error m
    | Except.ok value => Except.ok (key, value)

/-- RetrieveSecretSchema.parse: requires key, a string. -/
def retrieveSecretParse (args : Option Json) : Except String String :=
  parseStringField args "key"

/-- DeleteSecretSchema.parse: requires key, a string. -/
def deleteSecretParse (args : Option Json) : Except String String :=
  parseStringField args "key"

/-- Build the single-text-block result the handlers return, without
isError. -/
def okResult (text : String) : ToolResult :=
  { content := [{ type := "text", text := text }] }

/-- Build the single-text-block result with isError: true. -/
def errResult (text : String) : ToolResult :=
  { content := [{ type := "text", text := text }], isError := some true }

/-- The graceful-degradation text of the list_secrets catch branch. -/
def listDegradedText : String :=
  "Listing secrets is not available in this environment due to system permissions. This is a known limitation on some Linux systems with restrictive DBus/Secret Service configurations. Secrets can still be stored and retrieved individually by key."

/-- The CallToolRequestSchema handler of src/index.ts, lines 120-298.
The switch on the tool name is the if-chain (case-sensitive exact
match); each branch parses its schema, whose failure propagates to the
outer catch producing the "Error: {message}" result; the keyring calls
sit in the inner try of each case. Returns the result together with
the adapter state after the call. -/
def handleCallTool {σ : Type} (a : SecretAdapter σ) (s : σ)
    (name : String) (args : Option Json) : ToolResult × σ :=
  if name = "store_secret" then
    match storeSecretParse args with
    | Except.error m => (errResult ("Error: " ++ m), s)
    | Except.ok (key, value) =>
      match a.setPassword s key value with
      | Except.ok s' => (okResult ("Successfully stored secret with key: " ++ key), s')
      | Except.error m => (errResult ("Failed to store secret: " ++ m), s)
  else if name = "retrieve_secret" then
    match retrieveSecretParse args with
    | Except.error m => (errResult ("Error: " ++ m), s)
    | Except.ok key =>
      match a.getPassword s key with
      | Except.ok none => (okResult ("No secret found with key: " ++ key), s)
      | Except.ok (some secret) => (okResult secret, s)
      | Except.error m => (errResult ("Failed to retrieve secret: " ++ m), s)
  else if name = "delete_secret" then
    match deleteSecretParse args with
    | Except.error m => (errResult ("Error: " ++ m), s)
    | Except.ok key =>
      match a.deletePassword s key with
      | Except.ok (false, s') => (okResult ("No secret found with key: " ++ key), s')
      | Except.ok (true, s') => (okResult ("Successfully deleted secret with key: " ++ key), s')
      | Except.error m => (errResult ("Failed to delete secret: " ++ m), s)
  else if name = "list_secrets" then
    match a.findCredentials s with
    | Except.ok credentials =>
      let keys := credentials.map (fun cred => cred.account)
      if keys.length = 0 then
        (okResult "No secrets stored yet.", s)
      else
        (okResult ("Stored secret keys:\n" ++
          String.intercalate "\n" (keys.map (fun k => "- " ++ k))), s)
    | Except.error errorMessage =>
      if strIncludes errorMessage "Permission denied"
          || strIncludes errorMessage "DBus" then
        (okResult listDegradedText, s)
      else
        (errResult ("Failed to list secrets: " ++ errorMessage), s)
  else
    (errResult ("Unknown tool: " ++ name), s)

/-- The CallToolRequestSchema handler of src/http-server.ts, lines
112-290. Its body is textually identical to the stdio variant. -/
def httpHandleCallTool {σ : Type} (a : SecretAdapter σ) (s : σ)
    (name : String) (args : Option Json) : ToolResult × σ :=
  if name = "store_secret" then
    match storeSecretParse args with
    | Except.error m => (errResult ("Error: " ++ m), s)
    | Except.ok (key, value) =>
      match a.setPassword s key value with
      | Except.ok s' => (okResult ("Successfully stored secret with key: " ++ key), s')
      | Except.error m => (errResult ("Failed to store secret: " ++ m), s)
  else if name = "retrieve_secret" then
    match retrieveSecretParse args with
    | Except.error m => (errResult ("Error: " ++ m), s)
    | Except.ok key =>
      match a.getPassword s key with
      | Except.ok none => (okResult ("No secret found with key: " ++ key), s)
      | Except.ok (some secret) => (okResult secret, s)
      | Except.error m => (errResult ("Failed to retrieve secret: " ++ m), s)
  else if name = "delete_secret" then
    match deleteSecretParse args with
    | Except.error m => (errResult ("Error: " ++ m), s)
    | Except.ok key =>
      match a.deletePassword s key with
      | Except.ok (false, s') => (okResult ("No secret found with key: " ++ key), s')
      | Except.ok (true, s') => (okResult ("Successfully deleted secret with key: " ++ key), s')
      | Except.error m => (errResult ("Failed to delete secret: " ++ m), s)
  else if name = "list_secrets" then
    match a.findCredentials s with
    | Except.ok credentials =>
      let keys := credentials.map (fun cred => cred.account)
      if keys.length = 0 then
        (okResult "No secrets stored yet.", s)
      else
        (okResult ("Stored secret keys:\n" ++
          String.intercalate "\n" (keys.map (fun k => "- " ++ k))), s)
    | Except.error errorMessage =>
      if strIncludes errorMessage "Permission denied"
          || strIncludes errorMessage "DBus" then
        (okResult listDegradedText, s)
      else
        (errResult ("Failed to list secrets: " ++ errorMessage), s)
  else
    (errResult ("Unknown tool: " ++ name), s)

/-- Value stored under a key in the in-memory keyring model. -/
def memGet (s : List (String × String)) (k : String) : Option String :=
  ((s.filter fun p => p.1 = k).head?).map Prod.snd

/-- Remove the entries for a key in the in-memory keyring model. -/
def memErase (s : List (String × String)) (k : String) : List (String × String) :=
  s.filter fun p => ¬ (p.1 = k)

/-- In-memory model of the OS keyring under the fixed service scope:
an association list from key to value, never throwing. `setPassword`
overwrites any existing entry for the key; `deletePassword` reports
whether an entry existed; `findCredentials` returns the entries. -/
def memAdapter : SecretAdapter (List (String × String)) where
  setPassword s k v := Except.ok ((k, v) :: memErase s k)
  getPassword s k := Except.ok (memGet s k)
  deletePassword s k := Except.ok ((memGet s k).isSome, memErase s k)
  findCredentials s := Except.ok (s.map (fun p => { account := p.1, password := p.2 }))

/-- An adapter whose every keyring call throws with a fixed message:
models a native store failure (used to exercise the catch branches). -/
def faultyAdapter (msg : String) : SecretAdapter Unit where
  setPassword _ _ _ := Except.error msg
  getPassword _ _ := Except.error msg
  deletePassword _ _ := Except.error msg
  findCredentials _ := Except.error msg

/-- Run one tool call against the in-memory adapter. -/
def runReq (s : List (String × String)) (name : String) (args : Option Json) :
    ToolResult × List (String × String) :=
  handleCallTool memAdapter s name args

/-- Run a sequence of tool calls against the in-memory adapter,
keeping only the final state. -/
def runReqs (s : List (String × String)) (reqs : List (String × Option Json)) :
    List (String × String) :=
  match reqs with
  | [] => s
  | (name, args) :: rest => runReqs (runReq s name args).2 rest

/-- A request is a store or delete touching the given key: a
store_secret call whose validated key is k, or a delete_secret call
whose validated key is k. -/
def touchesKey (k : String) (name : String) (args : Option Json) : Prop :=
  (name = "store_secret" ∧ ∃ v, storeSecretParse args = Except.ok (k, v)) ∨
  (name = "delete_secret" ∧ deleteSecretParse args = Except.ok k)

/-- A tool descriptor as returned by the ListToolsRequestSchema
handler: name, description and the JSON input schema object. -/
structure ToolDescriptor where
  name : String
  description : String
  inputSchema : Json

/-- The static tool list of the ListToolsRequestSchema handler of
src/index.ts, lines 54-117. -/
def toolList : List ToolDescriptor :=
  [ { name := "store_secret",
      description := "Securely store a secret using the operating system\x27s native secret storage (Windows Credential Vault/DPAPI, macOS Keychain, or Linux Secret Service). The secret is encrypted and can only be accessed by the current user.",
      inputSchema := Json.obj
        [ ("type", Json.str "object"),
          ("properties", Json.obj
            [ ("key", Json.obj
                [ ("type", Json.str "string"),
                  ("description", Json.str "The unique identifier for the secret") ]),
              ("value", Json.obj
                [ ("type", Json.str "string"),
                  ("description", Json.str "The secret value to store") ]) ]),
          ("required", Json.arr [Json.str "key", Json.str "value"]) ] },
    { name := "retrieve_secret",
      description := "Retrieve a previously stored secret from the operating system\x27s native secret storage. Returns the decrypted secret value if it exists.",
      inputSchema := Json.obj
        [ ("type", Json.str "object"),
          ("properties", Json.obj
            [ ("key", Json.obj
                [ ("type", Json.str "string"),
                  ("description", Json.str "The unique identifier for the secret to retrieve") ]) ]),
          ("required", Json.arr [Json.str "key"]) ] },
    { name := "delete_secret",
      description := "Delete a secret from the operating system\x27s native secret storage. This permanently removes the secret.",
      inputSchema := Json.obj
        [ ("type", Json.str "object"),
          ("properties", Json.obj
            [ ("key", Json.obj
                [ ("type", Json.str "string"),
                  ("description", Json.str "The unique identifier for the secret to delete") ]) ]),
          ("required", Json.arr [Json.str "key"]) ] },
    { name := "list_secrets",
      description := "List all secret keys stored by this MCP server. Note: This returns only the keys (identifiers), not the actual secret values. Use retrieve_secret to get the values.",
      inputSchema := Json.obj
        [ ("type", Json.str "object"),
          ("properties", Json.obj []) ] } ]

/-- The static tool list of the ListToolsRequestSchema handler of
src/http-server.ts, lines 46-109; its body is textually identical to
the stdio variant. -/
def httpToolList : List ToolDescriptor :=
  [ { name := "store_secret",
      description := "Securely store a secret using the operating system\x27s native secret storage (Windows Credential Vault/DPAPI, macOS Keychain, or Linux Secret Service). The secret is encrypted and can only be accessed by the current user.",
      inputSchema := Json.obj
        [ ("type", Json.str "object"),
          ("properties", Json.obj
            [ ("key", Json.obj
                [ ("type", Json.str "string"),
                  ("description", Json.str "The unique identifier for the secret") ]),
              ("value", Json.obj
                [ ("type", Json.str "string"),
                  ("description", Json.str "The secret value to store") ]) ]),
          ("required", Json.arr [Json.str "key", Json.str "value"]) ] },
    { name := "retrieve_secret",
      description := "Retrieve a previously stored secret from the operating system\x27s native secret storage. Returns the decrypted secret value if it exists.",
      inputSchema := Json.obj
        [ ("type", Json.str "object"),
          ("properties", Json.obj
            [ ("key", Json.obj
                [ ("type", Json.str "string"),
                  ("description", Json.str "The unique identifier for the secret to retrieve") ]) ]),
          ("required", Json.arr [Json.str "key"]) ] },
    { name := "delete_secret",
      description := "Delete a secret from the operating system\x27s native secret storage. This permanently removes the secret.",
      inputSchema := Json.obj
        [ ("type", Json.str "object"),
          ("properties", Json.obj
            [ ("key", Json.obj
                [ ("type", Json.str "string"),
                  ("description", Json.str "The unique identifier for the secret to delete") ]) ]),
          ("required", Json.arr [Json.str "key"]) ] },
    { name := "list_secrets",
      description := "List all secret keys stored by this MCP server. Note: This returns only the keys (identifiers), not the actual secret values. Use retrieve_secret to get the values.",
      inputSchema := Json.obj
        [ ("type", Json.str "object"),
          ("properties", Json.obj []) ] } ]

/-- The ListToolsRequestSchema handler of src/index.ts: its closure
ignores the secret store entirely and returns the static list. -/
def handleListTools {σ : Type} (_a : SecretAdapter σ) (_s : σ) : List ToolDescriptor :=
  toolList

/-- The ListToolsRequestSchema handler of src/http-server.ts. -/
def httpHandleListTools {σ : Type} (_a : SecretAdapter σ) (_s : σ) : List ToolDescriptor :=
  httpToolList

/-- A JSON value is a structural object schema when it is an object
whose type field is the string object and which carries a properties
object. -/
def isStructuralSchema : Json → Bool
  | Json.obj fields =>
    (match jsonLookup fields "type" with
     | some (Json.str t) => t = "object"
     | _ => false) &&
    (match jsonLookup fields "properties" with
     | some (Json.obj _) => true
     | _ => false)
  | _ => false

/-! ### Lemmas about the in-memory keyring model -/

theorem memGet_set_self (s : List (String × String)) (k v : String) :
    memGet ((k, v) :: memErase s k) k = some v := by
  simp [memGet]

theorem filter_memErase (s : List (String × String)) (k k' : String) (h : k' ≠ k) :
    (memErase s k).filter (fun p => p.1 = k') = s.filter (fun p => p.1 = k') := by
  unfold memErase
  rw [List.filter_filter]
  apply List.filter_congr
  intro a _
  by_cases ha : a.1 = k'
  · have hak : ¬ (a.1 = k) := by rw [ha]; exact h
    simp only [ha, hak]
    simp [h]
  · simp [ha]

theorem memGet_erase_ne (s : List (String × String)) (k k' : String) (h : k' ≠ k) :
    memGet (memErase s k) k' = memGet s k' := by
  unfold memGet
  rw [filter_memErase s k k' h]

theorem memGet_set_ne (s : List (String × String)) (k v k' : String) (h : k' ≠ k) :
    memGet ((k, v) :: memErase s k) k' = memGet s k' := by
  simp only [memGet, List.filter_cons]
  have hk : ¬ (k = k') := fun hh => h hh.symm
  simp [hk, filter_memErase s k k' h]

theorem runReq_preserves_memGet (k name : String) (args : Option Json)
    (s : List (String × String)) (h : ¬ touchesKey k name args) :
    memGet (runReq s name args).2 k = memGet s k := by
  unfold runReq handleCallTool
  by_cases h1 : name = "store_secret"
  · subst h1
    cases hp : storeSecretParse args with
    | error m => simp [hp]
    | ok kv =>
      obtain ⟨key, value⟩ := kv
      have hk : k ≠ key := fun he => h (Or.inl ⟨rfl, value, by rw [hp, he]⟩)
      simp only [if_pos rfl, hp, memAdapter]
      exact memGet_set_ne s key value k hk
  · by_cases h2 : name = "retrieve_secret"
    · subst h2
      cases hp : retrieveSecretParse args with
      | error m => simp [h1, hp]
      | ok key =>
        simp only [if_neg h1, if_pos rfl, hp, memAdapter]
        cases hm : memGet s key <;> simp [hm]
    · by_cases h3 : name = "delete_secret"
      · subst h3
        cases hp : deleteSecretParse args with
        | error m => simp [h1, h2, hp]
        | ok key =>
          have hk : k ≠ key := fun he => h (Or.inr ⟨rfl, by rw [hp, he]⟩)
          simp only [if_neg h1, if_neg h2, if_pos rfl, hp, memAdapter]
          cases hb : (memGet s key).isSome <;>
            simpa [hb] using memGet_erase_ne s key k hk
      · by_cases h4 : name = "list_secrets"
        · subst h4
          simp only [if_neg h1, if_neg h2, if_neg h3, if_pos rfl, memAdapter]
          by_cases hs : s = [] <;> simp [hs]
        · simp [h1, h2, h3, h4]

theorem runReqs_preserves_memGet (k : String) (reqs : List (String × Option Json))
    (s : List (String × String)) (h : ∀ r ∈ reqs, ¬ touchesKey k r.1 r.2) :
    memGet (runReqs s reqs) k = memGet s k := by
  induction reqs generalizing s with
  | nil => rfl
  | cons r rest ih =>
    obtain ⟨name, args⟩ := r
    rw [runReqs]
    rw [ih _ (fun r hr => h r (List.mem_cons_of_mem _ hr))]
    exact runReq_preserves_memGet k name args s (h _ (List.mem_cons_self _ _))

/-! ### Claim theorems -/

/-- C1: for every (key, value) pair accepted by validation, calling the
store_secret handler with that key and value and then the
retrieve_secret handler with the same key — with any intervening
requests that are not a store or delete on that key — returns a result
whose single text block is exactly the stored value, with isError not
set. -/
theorem store_then_retrieve_roundtrip
    (key value : String) (storeArgs retrArgs : Option Json)
    (reqs : List (String × Option Json)) (s : List (String × String))
    (hstore : storeSecretParse storeArgs = Except.ok (key, value))
    (hretr : retrieveSecretParse retrArgs = Except.ok key)
    (hreqs : ∀ r ∈ reqs, ¬ touchesKey key r.1 r.2) :
    (runReq (runReqs (runReq s "store_secret" storeArgs).2 reqs)
        "retrieve_secret" retrArgs).1 =
      { content := [{ type := "text", text := value }], isError := none } := by
  have hs1 : (runReq s "store_secret" storeArgs).2 = (key, value) :: memErase s key := by
    unfold runReq handleCallTool
    simp [hstore, memAdapter]
  set s2 := runReqs (runReq s "store_secret" storeArgs).2 reqs with hs2
  have hget : memGet s2 key = some value := by
    rw [hs2, runReqs_preserves_memGet key reqs _ hreqs, hs1, memGet_set_self]
  show (handleCallTool memAdapter s2 "retrieve_secret" retrArgs).1 = _
  unfold handleCallTool
  simp [hretr, memAdapter, hget, okResult]

/-- C1 witness: the concrete scenario of the spec — store api_token
with value sk-123, then retrieve it. -/
theorem store_then_retrieve_roundtrip_witness :
    (runReq (runReqs (runReq [] "store_secret"
        (some (Json.obj [("key", Json.str "api_token"), ("value", Json.str "sk-123")]))).2 [])
        "retrieve_secret" (some (Json.obj [("key", Json.str "api_token")]))).1 =
      { content := [{ type := "text", text := "sk-123" }], isError := none } :=
  store_then_retrieve_roundtrip "api_token" "sk-123" _ _ [] [] rfl rfl
    (by intro r hr; cases hr)

/-- C2 counterexample: a store_secret call whose key is the empty
string passes validation and produces the ordinary success result with
isError not set — validation does not reject the empty key. -/
theorem empty_key_accepted_counterexample :
    (runReq [] "store_secret"
        (some (Json.obj [("key", Json.str ""), ("value", Json.str "v")]))).1
      = ToolResult.mk [ContentBlock.mk "text" "Successfully stored secret with key: "] none ∧
    ¬ ((runReq [] "store_secret"
        (some (Json.obj [("key", Json.str ""), ("value", Json.str "v")]))).1.isError
      = some true) := by
  constructor
  · rfl
  · intro hc
    exact Option.noConfusion hc

/-- C2 amended: argument validation requires key to be a string for
store_secret, retrieve_secret and delete_secret, but does not require
it to be non-empty: a call whose key is the empty string passes
validation and the dispatcher passes the empty key on to the secret
store adapter. -/
theorem validation_accepts_empty_key (v : String) :
    storeSecretParse (some (Json.obj [("key", Json.str ""), ("value", Json.str v)]))
      = Except.ok ("", v) ∧
    retrieveSecretParse (some (Json.obj [("key", Json.str "")])) = Except.ok "" ∧
    deleteSecretParse (some (Json.obj [("key", Json.str "")])) = Except.ok "" ∧
    (runReq [] "store_secret"
        (some (Json.obj [("key", Json.str ""), ("value", Json.str v)]))).2
      = [("", v)] :=
  ⟨rfl, rfl, rfl, rfl⟩

/-- C3: for every validated key, the retrieve_secret handler returns
the not-found text (isError not set) when the adapter reports the key
absent, exactly the stored value (isError not set) when the adapter
returns a value, and the failure text with isError true when the
adapter throws. -/
theorem retrieve_handler_spec {σ : Type} (a : SecretAdapter σ) (s : σ)
    (args : Option Json) (key : String)
    (h : retrieveSecretParse args = Except.ok key) :
    (a.getPassword s key = Except.ok none →
      handleCallTool a s "retrieve_secret" args
        = (okResult ("No secret found with key: " ++ key), s)) ∧
    (∀ v, a.getPassword s key = Except.ok (some v) →
      handleCallTool a s "retrieve_secret" args = (okResult v, s)) ∧
    (∀ m, a.getPassword s key = Except.error m →
      handleCallTool a s "retrieve_secret" args
        = (errResult ("Failed to retrieve secret: " ++ m), s)) := by
  refine ⟨fun hg => ?_, fun v hg => ?_, fun m hg => ?_⟩ <;>
    simp [handleCallTool, h, hg]

/-- C3 witness: retrieving the stored key k yields exactly its value. -/
theorem retrieve_handler_spec_witness :
    handleCallTool memAdapter [("k", "v")] "retrieve_secret"
        (some (Json.obj [("key", Json.str "k")])) = (okResult "v", [("k", "v")]) :=
  (retrieve_handler_spec memAdapter [("k", "v")]
      (some (Json.obj [("key", Json.str "k")])) "k" rfl).2.1 "v" rfl

/-- C4: for every validated key, the delete_secret handler returns the
not-found text (isError not set) when the adapter returns false, the
success text when it returns true, and the failure text with isError
true when the adapter throws. -/
theorem delete_handler_spec {σ : Type} (a : SecretAdapter σ) (s : σ)
    (args : Option Json) (key : String)
    (h : deleteSecretParse args = Except.ok key) :
    (∀ s', a.deletePassword s key = Except.ok (false, s') →
      handleCallTool a s "delete_secret" args
        = (okResult ("No secret found with key: " ++ key), s')) ∧
    (∀ s', a.deletePassword s key = Except.ok (true, s') →
      handleCallTool a s "delete_secret" args
        = (okResult ("Successfully deleted secret with key: " ++ key), s')) ∧
    (∀ m, a.deletePassword s key = Except.error m →
      handleCallTool a s "delete_secret" args
        = (errResult ("Failed to delete secret: " ++ m), s)) := by
  refine ⟨fun s' hg => ?_, fun s' hg => ?_, fun m hg => ?_⟩ <;>
    simp [handleCallTool, h, hg]

/-- C4 witness: deleting the stored key k yields the success text. -/
theorem delete_handler_spec_witness :
    handleCallTool memAdapter [("k", "v")] "delete_secret"
        (some (Json.obj [("key", Json.str "k")]))
      = (okResult "Successfully deleted secret with key: k", []) :=
  (delete_handler_spec memAdapter [("k", "v")]
      (some (Json.obj [("key", Json.str "k")])) "k" rfl).2.1 [] rfl

/-- C5: when the enumerate call of the adapter succeeds, list_secrets returns the
empty-store text for an empty sequence and otherwise one dash-prefixed
line per key in exactly the order the adapter returned, isError not
set. -/
theorem list_handler_ok_spec {σ : Type} (a : SecretAdapter σ) (s : σ)
    (args : Option Json) (creds : List Credential)
    (h : a.findCredentials s = Except.ok creds) :
    (creds = [] → handleCallTool a s "list_secrets" args
      = (okResult "No secrets stored yet.", s)) ∧
    (creds ≠ [] → handleCallTool a s "list_secrets" args
      = (okResult ("Stored secret keys:\n" ++ String.intercalate "\n"
          ((creds.map Credential.account).map (fun k => "- " ++ k))), s)) := by
  constructor
  · intro hc
    subst hc
    simp [handleCallTool, h]
  · intro hc
    simp [handleCallTool, h, hc]

/-- C5 witness: two stored entries are listed in adapter order. -/
theorem list_handler_ok_spec_witness :
    handleCallTool memAdapter [("a", "1"), ("b", "2")] "list_secrets" none
      = (okResult "Stored secret keys:\n- a\n- b", [("a", "1"), ("b", "2")]) := by
  rw [(list_handler_ok_spec memAdapter [("a", "1"), ("b", "2")] none
      [{ account := "a", password := "1" }, { account := "b", password := "2" }] rfl).2
    (by simp)]
  rfl

/-- C6: when the enumerate call of the adapter throws, list_secrets degrades
gracefully (isError not set, explanatory text) when the message
contains Permission denied or DBus, and otherwise returns the failure
text with isError true. -/
theorem list_handler_error_spec {σ : Type} (a : SecretAdapter σ) (s : σ)
    (args : Option Json) (m : String)
    (h : a.findCredentials s = Except.error m) :
    ((strIncludes m "Permission denied" || strIncludes m "DBus") = true →
      handleCallTool a s "list_secrets" args = (okResult listDegradedText, s)) ∧
    ((strIncludes m "Permission denied" || strIncludes m "DBus") = false →
      handleCallTool a s "list_secrets" args
        = (errResult ("Failed to list secrets: " ++ m), s)) := by
  constructor <;> intro hc <;> simp [handleCallTool, h, hc]

/-- C6 witness: an enumerate failure naming DBus degrades to the
non-error explanatory text. -/
theorem list_handler_error_spec_witness :
    handleCallTool (faultyAdapter "DBus connection refused") () "list_secrets" none
      = (okResult listDegradedText, ()) :=
  (list_handler_error_spec (faultyAdapter "DBus connection refused") () none
      "DBus connection refused" rfl).1 (by decide)

/-- C7: a tools/call whose name is none of the four registered tools
(case-sensitive) gets a normal Tool-Call Result with isError true and
text Unknown tool: followed by the name, in both the stdio and the
HTTP variant. -/
theorem unknown_tool_spec {σ : Type} (a : SecretAdapter σ) (s : σ)
    (name : String) (args : Option Json)
    (h1 : name ≠ "store_secret") (h2 : name ≠ "retrieve_secret")
    (h3 : name ≠ "delete_secret") (h4 : name ≠ "list_secrets") :
    handleCallTool a s name args = (errResult ("Unknown tool: " ++ name), s) ∧
    httpHandleCallTool a s name args = (errResult ("Unknown tool: " ++ name), s) := by
  constructor <;> simp [handleCallTool, httpHandleCallTool, h1, h2, h3, h4]

/-- C7 witness: calling the tool name unknown_tool. -/
theorem unknown_tool_spec_witness :
    handleCallTool memAdapter [] "unknown_tool" none
      = (errResult "Unknown tool: unknown_tool", []) :=
  (unknown_tool_spec memAdapter [] "unknown_tool" none
    (by decide) (by decide) (by decide) (by decide)).1

/-- C8: an argument-validation failure in any of the three key-taking
tools is caught at the outermost dispatch boundary and converted to a
Tool-Call Result with isError true and text Error: followed by the
message, in both variants; the dispatcher is a total function, so no
exception reaches the transport layer. -/
theorem validation_failure_caught {σ : Type} (a : SecretAdapter σ) (s : σ)
    (name : String) (args : Option Json) (m : String)
    (h : (name = "store_secret" ∧ storeSecretParse args = Except.error m) ∨
         (name = "retrieve_secret" ∧ retrieveSecretParse args = Except.error m) ∨
         (name = "delete_secret" ∧ deleteSecretParse args = Except.error m)) :
    handleCallTool a s name args = (errResult ("Error: " ++ m), s) ∧
    httpHandleCallTool a s name args = (errResult ("Error: " ++ m), s) := by
  obtain ⟨hn, hp⟩ | ⟨hn, hp⟩ | ⟨hn, hp⟩ := h <;> subst hn <;>
    exact ⟨by unfold handleCallTool; simp [hp], by unfold httpHandleCallTool; simp [hp]⟩

/-- C8 witness: store_secret with empty arguments fails validation on
the missing key and yields the Error:-prefixed result. -/
theorem validation_failure_caught_witness :
    handleCallTool memAdapter [] "store_secret" (some (Json.obj []))
      = (errResult "Error: key: Required", []) :=
  (validation_failure_caught memAdapter [] "store_secret" (some (Json.obj []))
    "key: Required" (Or.inl ⟨rfl, rfl⟩)).1

set_option maxRecDepth 8000 in
/-- C9: in both variants the tools/list handler ignores the secret
store entirely and returns the same static list of exactly 4
descriptors in the order store_secret, retrieve_secret, delete_secret,
list_secrets, each with a non-empty description and a structural
object input schema. -/
theorem list_tools_static {σ : Type} (a : SecretAdapter σ) (s : σ) :
    handleListTools a s = toolList ∧
    httpHandleListTools a s = toolList ∧
    toolList.length = 4 ∧
    toolList.map ToolDescriptor.name
      = ["store_secret", "retrieve_secret", "delete_secret", "list_secrets"] ∧
    (toolList.all fun d => !d.description.isEmpty && isStructuralSchema d.inputSchema)
      = true :=
  ⟨rfl, rfl, rfl, rfl, rfl⟩

/-- C10: every result of the tool-call dispatcher — both variants, all
paths — carries exactly one content block and its type is text. -/
theorem call_result_single_text_block {σ : Type} (a : SecretAdapter σ) (s : σ)
    (name : String) (args : Option Json) :
    (handleCallTool a s name args).1.content.map ContentBlock.type = ["text"] ∧
    (httpHandleCallTool a s name args).1.content.map ContentBlock.type = ["text"] := by
  constructor
  · unfold handleCallTool
    repeat' split
    all_goals dsimp only
    all_goals try split
    all_goals simp [okResult, errResult]
  · unfold httpHandleCallTool
    repeat' split
    all_goals dsimp only
    all_goals try split
    all_goals simp [okResult, errResult]

end SecretsMcp
